import Mathlib

/-!
Shallow embedding of `src/mod.ts` of jespertheend/selfsigned.

The program provisions self-signed TLS certificates: `getSelfSignedCert`
resolves an output directory, and `generateOutDirContents` either reads
back an existing key/certificate pair from that directory, or (on the
supported platform, darwin) creates the directory, writes a `.gitignore`,
invokes the external `openssl` tool, writes a readme, and reads the
generated files back.  Any error raised inside `generateOutDirContents`
causes `getSelfSignedCert` to remove the output directory recursively and
re-raise.

The filesystem is modelled as an explicit state (`FS`): a list of existing
directories and an association list of file paths to text contents.  The
external tool is a parameter `tool : List String → ToolOutcome`: given the
argument vector, it either succeeds (producing key and certificate file
contents, which the run writes at the key/cert paths, as openssl does) or
fails with an exit code.  Every run also produces an event trace recording
the side effects (directory creation, file writes by the program itself,
tool spawns, file reads, recursive removals, console diagnostics).
-/

namespace Selfsigned

/-- The options record `GetSelfSignedCertOptions` of `src/mod.ts`.
`Option` models a field being absent (`undefined` in JS). -/
structure GetSelfSignedCertDocumentationOptions where
  projectUrl : Option String := none
  deriving Repr, DecidableEq

structure GetSelfSignedCertOptions where
  name : Option String := none
  outDir : Option String := none
  days : Option Int := none
  extraAltNames : Option (List String) := none
  docs : Option GetSelfSignedCertDocumentationOptions := none
  deriving Repr, DecidableEq

/-- The record returned by `generateOutDirContents` on the non-null path. -/
structure CertResult where
  outDir : String
  key : String
  cert : String
  keyFile : String
  certFile : String
  deriving Repr, DecidableEq

/-- Errors thrown by the program: `openssl` exiting non-zero
(line 96 of `mod.ts`), or `Deno.readTextFile` failing on a missing file
(lines 131-132). -/
inductive ProvisioningError where
  | toolFailed (code : Int)
  | readFailed (path : String)
  deriving Repr, DecidableEq

/-- Outcome of invoking the external certificate-generation tool:
success leaves key and certificate contents at the requested paths,
failure carries the non-zero exit code. -/
inductive ToolOutcome where
  | ok (key cert : String)
  | fail (code : Int)
  deriving Repr, DecidableEq

/-- One observable side effect of a run. -/
inductive Event where
  | mkdirEv (path : String)
  | writeEv (path content : String)
  | spawnEv (args : List String)
  | readEv (path : String)
  | removeEv (path : String)
  | consoleEv (msg : String)
  deriving Repr, DecidableEq

/-- `p` lies strictly below directory `dir`: `dir ++ "/"` starts `p`. -/
def underDir (dir p : String) : Bool :=
  (dir ++ "/").data.isPrefixOf p.data

/-- The filesystem state: directories that exist, and files (path paired
with text contents).  Writes prepend; reads find the most recent entry. -/
structure FS where
  dirs : List String
  files : List (String × String)
  deriving Repr, DecidableEq

def FS.dirExists (fs : FS) (p : String) : Bool :=
  fs.dirs.contains p

def FS.ensureDir (fs : FS) (p : String) : FS :=
  { fs with dirs := p :: fs.dirs }

def FS.writeFile (fs : FS) (p c : String) : FS :=
  { fs with files := (p, c) :: fs.files }

def FS.readFile (fs : FS) (p : String) : Option String :=
  (fs.files.find? (fun e => e.1 == p)).map (fun e => e.2)

/-- `Deno.remove(outDir, { recursive: true })`: the directory itself, every
directory below it and every file below it disappear. -/
def FS.removeRecursive (fs : FS) (p : String) : FS :=
  { dirs := fs.dirs.filter (fun d => !(d == p || underDir p d)),
    files := fs.files.filter (fun e => !(underDir p e.1)) }

/-- `stdPath.resolve(dir, child)` for an absolute `dir` and a plain file
name `child`: join with a separator. -/
def resolveIn (dir child : String) : String :=
  dir ++ "/" ++ child

/-- `stdPath.resolve(p)` against the current working directory `cwd`
(assumed absolute and normalized, as are the inputs the claims use):
an absolute path stays, a relative one is joined onto `cwd`. -/
def resolve (cwd p : String) : String :=
  match p.data with
  | '/' :: _ => p
  | _ => cwd ++ "/" ++ p

/-- JavaScript `a || b` for a possibly-absent string `a`: `undefined` and
the empty string are falsy (line 40 of `mod.ts`). -/
def jsOr (s : Option String) (dflt : String) : String :=
  match s with
  | none => dflt
  | some v => if v = "" then dflt else v

/-- Line 40: `stdPath.resolve(options.outDir || "selfSignedCerts")`. -/
def resolvedOutDir (cwd : String) (options : GetSelfSignedCertOptions) : String :=
  resolve cwd (jsOr options.outDir "selfSignedCerts")

/-- Destructuring default `name = "Self Signed Cert"` (line 50):
applies only when the field is absent, not when it is the empty string. -/
def resolvedName (options : GetSelfSignedCertOptions) : String :=
  options.name.getD "Self Signed Cert"

/-- Destructuring default `days = 365` (line 51). -/
def resolvedDays (options : GetSelfSignedCertOptions) : Int :=
  options.days.getD 365

/-- Destructuring default `extraAltNames = []` (line 52). -/
def resolvedExtraAltNames (options : GetSelfSignedCertOptions) : List String :=
  options.extraAltNames.getD []

/-- Defaults `docs = {}` (line 53) and
`projectUrl = "https://localhost:8080"` (line 56). -/
def resolvedProjectUrl (options : GetSelfSignedCertOptions) : String :=
  (options.docs.getD {}).projectUrl.getD "https://localhost:8080"

/-- The argument vector handed to `openssl` (lines 72-90 of `mod.ts`). -/
def opensslArgs (keyFile certFile name : String) (altNames : List String)
    (days : Int) : List String :=
  ["req", "-newkey", "rsa:4096", "-x509", "-nodes", "-keyout", keyFile,
   "-new", "-out", certFile, "-subj", "/CN=" ++ name, "-addext",
   "subjectAltName = " ++ String.intercalate "," altNames, "-sha256",
   "-days", toString days]

/-- The readme template (lines 101-123 of `mod.ts`), interpolating
`projectUrl` and `name`. -/
def readmeText (name projectUrl : String) : String :=
  "# Self Signed Certs\n\n" ++
  "These files are used for hosting a local https server. You may visit " ++
  projectUrl ++ "\n" ++
  "in your browser directly, but you will probably get a security warning. You can\n" ++
  "dismiss the warning but this will likely still disable some browser features.\n" ++
  "To fix this, you have to make your browser trust the certificate.\n\n" ++
  "# Chrome and Safari\n\n" ++
  "On macOS you can do this by adding selfsigned.crt to your keychain:\n" ++
  "\t- Double click selfsigned.crt to add it to the macOS keychain\n" ++
  "\t- Open Keychain Access and find \x27" ++ name ++
  "\x27 under System Keychains -> System -> Certifcates (tab)\n" ++
  "\t- Double click \x27" ++ name ++ "\x27 and open the \x27trust\x27 section\n" ++
  "\t- Set \x27Secure Sockets Layer (SSL)\x27 to \x27always trust\x27\n" ++
  "\t- Make sure to close the window and enter your password for the changes to take effect\n" ++
  "\t- If you have already visited the page, you may need to restart your browser.\n\n" ++
  "# Firefox\n\n" ++
  "Firefox doesn\x27t automatically trust system certificates unfortunately.\n" ++
  "But so far it seems like dismissing the security warning on " ++ projectUrl ++ "\n" ++
  "adds a security exception which is remembered even after restarting the browser.\n"

/-- The three conjuncts a run produces: the value returned (or the error
thrown), the final filesystem state, and the event trace in order. -/
structure RunOut where
  result : Except ProvisioningError (Option CertResult)
  fs : FS
  events : List Event
  deriving Repr

/-- Lines 131-139 of `mod.ts`: read the key file, then the certificate
file, and bundle the result; a missing file throws. -/
def readBack (fs : FS) (evs : List Event) (outDir keyFile certFile : String) :
    RunOut :=
  match fs.readFile keyFile with
  | none => ⟨.error (.readFailed keyFile), fs, evs ++ [.readEv keyFile]⟩
  | some key =>
    match fs.readFile certFile with
    | none =>
      ⟨.error (.readFailed certFile), fs,
        evs ++ [.readEv keyFile, .readEv certFile]⟩
    | some cert =>
      ⟨.ok (some ⟨outDir, key, cert, keyFile, certFile⟩), fs,
        evs ++ [.readEv keyFile, .readEv certFile]⟩

/-- Lines 49-140 of `mod.ts`.  `platform` is `Deno.build.os`; `tool` is the
behaviour of the `openssl` child process. -/
def generateOutDirContents (platform : String)
    (tool : List String → ToolOutcome) (outDir : String)
    (options : GetSelfSignedCertOptions) (fs : FS) : RunOut :=
  let name := resolvedName options
  let days := resolvedDays options
  let extraAltNames := resolvedExtraAltNames options
  let projectUrl := resolvedProjectUrl options
  let keyFile := resolveIn outDir "selfsigned.key"
  let certFile := resolveIn outDir "selfsigned.crt"
  if fs.dirExists outDir then
    readBack fs [] outDir keyFile certFile
  else
    let fs1 := (fs.ensureDir outDir).writeFile (resolveIn outDir ".gitignore") "**"
    let evs1 : List Event :=
      [.mkdirEv outDir, .writeEv (resolveIn outDir ".gitignore") "**"]
    if platform = "darwin" then
      let altNames := ["DNS:localhost", "IP:127.0.0.1", "IP:0.0.0.0"] ++ extraAltNames
      let args := opensslArgs keyFile certFile name altNames days
      match tool args with
      | .fail code =>
        ⟨.error (.toolFailed code), fs1, evs1 ++ [.spawnEv args]⟩
      | .ok key cert =>
        let fs2 := (fs1.writeFile keyFile key).writeFile certFile cert
        let fs3 := fs2.writeFile (resolveIn outDir "readme.md")
          (readmeText name projectUrl)
        readBack fs3
          (evs1 ++ [.spawnEv args,
            .writeEv (resolveIn outDir "readme.md") (readmeText name projectUrl)])
          outDir keyFile certFile
    else
      ⟨.ok none, fs1,
        evs1 ++ [.consoleEv "Creating self signed certificates is not supported on this platform."]⟩

/-- Lines 39-47 of `mod.ts`: resolve the output directory, run
`generateOutDirContents`, and on any error remove the output directory
recursively before re-raising. -/
def getSelfSignedCert (platform : String) (tool : List String → ToolOutcome)
    (cwd : String) (options : GetSelfSignedCertOptions) (fs : FS) : RunOut :=
  let outDir := resolvedOutDir cwd options
  let r := generateOutDirContents platform tool outDir options fs
  match r.result with
  | .error e =>
    ⟨.error e, r.fs.removeRecursive outDir, r.events ++ [.removeEv outDir]⟩
  | .ok v => ⟨.ok v, r.fs, r.events⟩

/-- The argument vectors of the tool spawns in a trace, in order. -/
def spawnedArgs : List Event → List (List String)
  | [] => []
  | .spawnEv a :: es => a :: spawnedArgs es
  | _ :: es => spawnedArgs es

/-! ### Path and filesystem lemmas -/

theorem resolveIn_inj {d a b : String} (hab : resolveIn d a = resolveIn d b) :
    a = b := by
  apply String.ext
  have h := congrArg String.data hab
  simp only [resolveIn, String.data_append, List.append_assoc] at h
  exact List.append_cancel_left (List.append_cancel_left h)

theorem resolveIn_ne (d : String) {a b : String} (h : a ≠ b) :
    resolveIn d a ≠ resolveIn d b :=
  fun hab => h (resolveIn_inj hab)

theorem underDir_resolveIn (d x : String) : underDir d (resolveIn d x) = true := by
  unfold underDir resolveIn
  rw [String.data_append]
  exact List.isPrefixOf_iff_prefix.mpr (List.prefix_append _ _)

theorem resolveIn_key (d : String) :
    resolveIn d "selfsigned.key" = d ++ "/selfsigned.key" := by
  unfold resolveIn
  rw [String.append_assoc]
  rfl

theorem resolveIn_crt (d : String) :
    resolveIn d "selfsigned.crt" = d ++ "/selfsigned.crt" := by
  unfold resolveIn
  rw [String.append_assoc]
  rfl

theorem FS.readFile_writeFile_self (fs : FS) (p c : String) :
    (fs.writeFile p c).readFile p = some c := by
  unfold FS.writeFile FS.readFile
  rw [List.find?_cons_of_pos _ (by simp)]
  rfl

theorem FS.readFile_writeFile_ne (fs : FS) (p q c : String) (h : p ≠ q) :
    (fs.writeFile p c).readFile q = fs.readFile q := by
  unfold FS.writeFile FS.readFile
  rw [List.find?_cons_of_neg]
  simp [h]

theorem FS.dirExists_writeFile (fs : FS) (p c q : String) :
    (fs.writeFile p c).dirExists q = fs.dirExists q := rfl

theorem FS.dirExists_ensureDir_self (fs : FS) (p : String) :
    (fs.ensureDir p).dirExists p = true := by
  simp [FS.ensureDir, FS.dirExists, List.contains_cons]

theorem contains_filter_eq_false {p : String} {f : String → Bool}
    (hf : f p = false) (l : List String) : (l.filter f).contains p = false := by
  induction l with
  | nil => rfl
  | cons d ds ih =>
    rw [List.filter_cons]
    by_cases hd : f d = true
    · rw [if_pos hd, List.contains_cons, ih, Bool.or_false]
      exact beq_eq_false_iff_ne.mpr
        (fun h => by rw [h] at hf; rw [hf] at hd; cases hd)
    · rw [if_neg hd]
      exact ih

theorem FS.dirExists_removeRecursive_self (fs : FS) (p : String) :
    (fs.removeRecursive p).dirExists p = false := by
  unfold FS.removeRecursive FS.dirExists
  exact contains_filter_eq_false (by simp) _

theorem FS.files_removeRecursive (fs : FS) (p : String) :
    ∀ e ∈ (fs.removeRecursive p).files, underDir p e.1 = false := by
  intro e he
  have h := (List.mem_filter.mp he).2
  simpa using h

theorem FS.readFile_none_of_underDir (fs : FS) (od p : String)
    (hfiles : ∀ e ∈ fs.files, underDir od e.1 = false)
    (hp : underDir od p = true) : fs.readFile p = none := by
  unfold FS.readFile
  have h : fs.files.find? (fun e => e.1 == p) = none := by
    rw [List.find?_eq_none]
    intro e he heq
    have h1 := hfiles e he
    have h2 : e.1 = p := by simpa using heq
    rw [h2, hp] at h1
    cases h1
  rw [h]
  rfl

theorem rm_ne_key (od : String) :
    resolveIn od "readme.md" ≠ resolveIn od "selfsigned.key" :=
  resolveIn_ne od (by decide)

theorem crt_ne_key (od : String) :
    resolveIn od "selfsigned.crt" ≠ resolveIn od "selfsigned.key" :=
  resolveIn_ne od (by decide)

theorem rm_ne_crt (od : String) :
    resolveIn od "readme.md" ≠ resolveIn od "selfsigned.crt" :=
  resolveIn_ne od (by decide)

/-- Reading the key file back from the filesystem as it stands after the
generation path has written everything. -/
theorem genChain_readFile_key (fs : FS) (od key cert nm pu : String) :
    (((((fs.ensureDir od).writeFile (resolveIn od ".gitignore") "**").writeFile
        (resolveIn od "selfsigned.key") key).writeFile
        (resolveIn od "selfsigned.crt") cert).writeFile
        (resolveIn od "readme.md") (readmeText nm pu)).readFile
        (resolveIn od "selfsigned.key") = some key := by
  rw [FS.readFile_writeFile_ne _ _ _ _ (rm_ne_key od),
    FS.readFile_writeFile_ne _ _ _ _ (crt_ne_key od),
    FS.readFile_writeFile_self]

/-- Reading the certificate file back from the post-generation filesystem. -/
theorem genChain_readFile_crt (fs : FS) (od key cert nm pu : String) :
    (((((fs.ensureDir od).writeFile (resolveIn od ".gitignore") "**").writeFile
        (resolveIn od "selfsigned.key") key).writeFile
        (resolveIn od "selfsigned.crt") cert).writeFile
        (resolveIn od "readme.md") (readmeText nm pu)).readFile
        (resolveIn od "selfsigned.crt") = some cert := by
  rw [FS.readFile_writeFile_ne _ _ _ _ (rm_ne_crt od),
    FS.readFile_writeFile_self]

/-! ### Normal forms of the execution paths of `getSelfSignedCert` -/

/-- Cache hit with both files readable: pure read-back. -/
theorem run_cachehit_ok (platform : String) (tool : List String → ToolOutcome)
    (cwd : String) (options : GetSelfSignedCertOptions) (fs : FS) (k c : String)
    (hdir : fs.dirExists (resolvedOutDir cwd options) = true)
    (hkey : fs.readFile (resolveIn (resolvedOutDir cwd options) "selfsigned.key") = some k)
    (hcert : fs.readFile (resolveIn (resolvedOutDir cwd options) "selfsigned.crt") = some c) :
    getSelfSignedCert platform tool cwd options fs =
      ⟨.ok (some ⟨resolvedOutDir cwd options, k, c,
          resolveIn (resolvedOutDir cwd options) "selfsigned.key",
          resolveIn (resolvedOutDir cwd options) "selfsigned.crt"⟩), fs,
        [.readEv (resolveIn (resolvedOutDir cwd options) "selfsigned.key"),
         .readEv (resolveIn (resolvedOutDir cwd options) "selfsigned.crt")]⟩ := by
  simp only [getSelfSignedCert, generateOutDirContents, readBack, hdir, hkey, hcert]
  simp

/-- Cache hit with the key file unreadable: the read fails and the catch in
`getSelfSignedCert` removes the directory. -/
theorem run_cachehit_keyMissing (platform : String)
    (tool : List String → ToolOutcome) (cwd : String)
    (options : GetSelfSignedCertOptions) (fs : FS)
    (hdir : fs.dirExists (resolvedOutDir cwd options) = true)
    (hkey : fs.readFile (resolveIn (resolvedOutDir cwd options) "selfsigned.key") = none) :
    getSelfSignedCert platform tool cwd options fs =
      ⟨.error (.readFailed (resolveIn (resolvedOutDir cwd options) "selfsigned.key")),
        fs.removeRecursive (resolvedOutDir cwd options),
        [.readEv (resolveIn (resolvedOutDir cwd options) "selfsigned.key"),
         .removeEv (resolvedOutDir cwd options)]⟩ := by
  simp only [getSelfSignedCert, generateOutDirContents, readBack, hdir, hkey]
  simp

/-- Cache hit with the key file readable but the certificate file
unreadable. -/
theorem run_cachehit_certMissing (platform : String)
    (tool : List String → ToolOutcome) (cwd : String)
    (options : GetSelfSignedCertOptions) (fs : FS) (k : String)
    (hdir : fs.dirExists (resolvedOutDir cwd options) = true)
    (hkey : fs.readFile (resolveIn (resolvedOutDir cwd options) "selfsigned.key") = some k)
    (hcert : fs.readFile (resolveIn (resolvedOutDir cwd options) "selfsigned.crt") = none) :
    getSelfSignedCert platform tool cwd options fs =
      ⟨.error (.readFailed (resolveIn (resolvedOutDir cwd options) "selfsigned.crt")),
        fs.removeRecursive (resolvedOutDir cwd options),
        [.readEv (resolveIn (resolvedOutDir cwd options) "selfsigned.key"),
         .readEv (resolveIn (resolvedOutDir cwd options) "selfsigned.crt"),
         .removeEv (resolvedOutDir cwd options)]⟩ := by
  simp only [getSelfSignedCert, generateOutDirContents, readBack, hdir, hkey, hcert]
  simp

/-- Fresh directory on darwin with a succeeding tool: full generation. -/
theorem run_fresh_darwin_ok (tool : List String → ToolOutcome) (cwd : String)
    (options : GetSelfSignedCertOptions) (fs : FS) (key cert : String)
    (hdir : fs.dirExists (resolvedOutDir cwd options) = false)
    (htool : tool (opensslArgs (resolveIn (resolvedOutDir cwd options) "selfsigned.key")
        (resolveIn (resolvedOutDir cwd options) "selfsigned.crt") (resolvedName options)
        (["DNS:localhost", "IP:127.0.0.1", "IP:0.0.0.0"] ++ resolvedExtraAltNames options)
        (resolvedDays options)) = .ok key cert) :
    getSelfSignedCert "darwin" tool cwd options fs =
      ⟨.ok (some ⟨resolvedOutDir cwd options, key, cert,
          resolveIn (resolvedOutDir cwd options) "selfsigned.key",
          resolveIn (resolvedOutDir cwd options) "selfsigned.crt"⟩),
        ((((fs.ensureDir (resolvedOutDir cwd options)).writeFile
            (resolveIn (resolvedOutDir cwd options) ".gitignore") "**").writeFile
            (resolveIn (resolvedOutDir cwd options) "selfsigned.key") key).writeFile
            (resolveIn (resolvedOutDir cwd options) "selfsigned.crt") cert).writeFile
            (resolveIn (resolvedOutDir cwd options) "readme.md")
            (readmeText (resolvedName options) (resolvedProjectUrl options)),
        [.mkdirEv (resolvedOutDir cwd options),
         .writeEv (resolveIn (resolvedOutDir cwd options) ".gitignore") "**",
         .spawnEv (opensslArgs (resolveIn (resolvedOutDir cwd options) "selfsigned.key")
            (resolveIn (resolvedOutDir cwd options) "selfsigned.crt") (resolvedName options)
            (["DNS:localhost", "IP:127.0.0.1", "IP:0.0.0.0"] ++ resolvedExtraAltNames options)
            (resolvedDays options)),
         .writeEv (resolveIn (resolvedOutDir cwd options) "readme.md")
            (readmeText (resolvedName options) (resolvedProjectUrl options)),
         .readEv (resolveIn (resolvedOutDir cwd options) "selfsigned.key"),
         .readEv (resolveIn (resolvedOutDir cwd options) "selfsigned.crt")]⟩ := by
  simp only [getSelfSignedCert, generateOutDirContents, hdir, Bool.false_eq_true, if_false,
    if_true, eq_self_iff_true]
  rw [htool]
  simp only [readBack, genChain_readFile_key, genChain_readFile_crt]
  simp

/-- Fresh directory on darwin with a failing tool: the error propagates and
the catch removes the directory. -/
theorem run_fresh_darwin_fail (tool : List String → ToolOutcome) (cwd : String)
    (options : GetSelfSignedCertOptions) (fs : FS) (code : Int)
    (hdir : fs.dirExists (resolvedOutDir cwd options) = false)
    (htool : tool (opensslArgs (resolveIn (resolvedOutDir cwd options) "selfsigned.key")
        (resolveIn (resolvedOutDir cwd options) "selfsigned.crt") (resolvedName options)
        (["DNS:localhost", "IP:127.0.0.1", "IP:0.0.0.0"] ++ resolvedExtraAltNames options)
        (resolvedDays options)) = .fail code) :
    getSelfSignedCert "darwin" tool cwd options fs =
      ⟨.error (.toolFailed code),
        ((fs.ensureDir (resolvedOutDir cwd options)).writeFile
            (resolveIn (resolvedOutDir cwd options) ".gitignore") "**").removeRecursive
            (resolvedOutDir cwd options),
        [.mkdirEv (resolvedOutDir cwd options),
         .writeEv (resolveIn (resolvedOutDir cwd options) ".gitignore") "**",
         .spawnEv (opensslArgs (resolveIn (resolvedOutDir cwd options) "selfsigned.key")
            (resolveIn (resolvedOutDir cwd options) "selfsigned.crt") (resolvedName options)
            (["DNS:localhost", "IP:127.0.0.1", "IP:0.0.0.0"] ++ resolvedExtraAltNames options)
            (resolvedDays options)),
         .removeEv (resolvedOutDir cwd options)]⟩ := by
  simp only [getSelfSignedCert, generateOutDirContents, hdir, Bool.false_eq_true, if_false,
    if_true, eq_self_iff_true]
  rw [htool]
  simp

/-- Fresh directory on a platform other than darwin: marker file only,
null result. -/
theorem run_fresh_unsupported (platform : String)
    (tool : List String → ToolOutcome) (cwd : String)
    (options : GetSelfSignedCertOptions) (fs : FS)
    (hplat : platform ≠ "darwin")
    (hdir : fs.dirExists (resolvedOutDir cwd options) = false) :
    getSelfSignedCert platform tool cwd options fs =
      ⟨.ok none,
        (fs.ensureDir (resolvedOutDir cwd options)).writeFile
          (resolveIn (resolvedOutDir cwd options) ".gitignore") "**",
        [.mkdirEv (resolvedOutDir cwd options),
         .writeEv (resolveIn (resolvedOutDir cwd options) ".gitignore") "**",
         .consoleEv "Creating self signed certificates is not supported on this platform."]⟩ := by
  simp only [getSelfSignedCert, generateOutDirContents, hdir, Bool.false_eq_true, if_false]
  rw [if_neg hplat]
  simp

theorem gi_ne_key (od : String) :
    resolveIn od ".gitignore" ≠ resolveIn od "selfsigned.key" :=
  resolveIn_ne od (by decide)

theorem gi_ne_crt (od : String) :
    resolveIn od ".gitignore" ≠ resolveIn od "selfsigned.crt" :=
  resolveIn_ne od (by decide)

theorem gi_ne_rm (od : String) :
    resolveIn od ".gitignore" ≠ resolveIn od "readme.md" :=
  resolveIn_ne od (by decide)

/-! ### The claims -/

/-- Claim C1: on a supported platform, with a fresh output directory, a
non-zero tool exit makes the call fail with `ToolFailed(exitCode)`, and the
output directory (with everything below it) no longer exists afterwards. -/
theorem toolFailureIsAtomic (platform : String) (tool : List String → ToolOutcome)
    (cwd : String) (options : GetSelfSignedCertOptions) (fs : FS) (code : Int)
    (hplat : platform = "darwin")
    (hdir : fs.dirExists (resolvedOutDir cwd options) = false)
    (htool : ∀ args, tool args = .fail code) :
    (getSelfSignedCert platform tool cwd options fs).result =
      .error (.toolFailed code) ∧
    (getSelfSignedCert platform tool cwd options fs).fs.dirExists
      (resolvedOutDir cwd options) = false ∧
    ∀ e ∈ (getSelfSignedCert platform tool cwd options fs).fs.files,
      underDir (resolvedOutDir cwd options) e.1 = false := by
  subst hplat
  rw [run_fresh_darwin_fail tool cwd options fs code hdir (htool _)]
  exact ⟨rfl, FS.dirExists_removeRecursive_self _ _, FS.files_removeRecursive _ _⟩

theorem toolFailureIsAtomicWitness :
    (getSelfSignedCert "darwin" (fun _ => ToolOutcome.fail 3) "/c" {} ⟨[], []⟩).result =
      .error (.toolFailed 3) ∧
    (getSelfSignedCert "darwin" (fun _ => ToolOutcome.fail 3) "/c" {} ⟨[], []⟩).fs.dirExists
      (resolvedOutDir "/c" {}) = false ∧
    ∀ e ∈ (getSelfSignedCert "darwin" (fun _ => ToolOutcome.fail 3) "/c" {} ⟨[], []⟩).fs.files,
      underDir (resolvedOutDir "/c" {}) e.1 = false :=
  toolFailureIsAtomic "darwin" (fun _ => ToolOutcome.fail 3) "/c" {} ⟨[], []⟩ 3 rfl rfl
    (fun _ => rfl)

/-- Claim C2: when a first call succeeds on a fresh directory, a second call
with the identical request invokes no tool and returns byte-identical key
and certificate contents. -/
theorem provisionIdempotent (tool : List String → ToolOutcome) (cwd : String)
    (options : GetSelfSignedCertOptions) (fs : FS) (key cert : String)
    (hdir : fs.dirExists (resolvedOutDir cwd options) = false)
    (htool : ∀ args, tool args = .ok key cert) :
    ∃ r₁ r₂ : CertResult,
      (getSelfSignedCert "darwin" tool cwd options fs).result = .ok (some r₁) ∧
      (getSelfSignedCert "darwin" tool cwd options
          (getSelfSignedCert "darwin" tool cwd options fs).fs).result = .ok (some r₂) ∧
      r₂.key = r₁.key ∧ r₂.cert = r₁.cert ∧
      ∀ a, Event.spawnEv a ∉
        (getSelfSignedCert "darwin" tool cwd options
          (getSelfSignedCert "darwin" tool cwd options fs).fs).events := by
  rw [run_fresh_darwin_ok tool cwd options fs key cert hdir (htool _)]
  have hd2 : (((((fs.ensureDir (resolvedOutDir cwd options)).writeFile
      (resolveIn (resolvedOutDir cwd options) ".gitignore") "**").writeFile
      (resolveIn (resolvedOutDir cwd options) "selfsigned.key") key).writeFile
      (resolveIn (resolvedOutDir cwd options) "selfsigned.crt") cert).writeFile
      (resolveIn (resolvedOutDir cwd options) "readme.md")
      (readmeText (resolvedName options) (resolvedProjectUrl options))).dirExists
      (resolvedOutDir cwd options) = true := by
    simp [FS.writeFile, FS.ensureDir, FS.dirExists, List.contains_cons]
  rw [run_cachehit_ok "darwin" tool cwd options _ key cert hd2
    (genChain_readFile_key _ _ _ _ _ _) (genChain_readFile_crt _ _ _ _ _ _)]
  refine ⟨_, _, rfl, rfl, rfl, rfl, ?_⟩
  intro a
  simp

theorem provisionIdempotentWitness :
    ∃ r₁ r₂ : CertResult,
      (getSelfSignedCert "darwin" (fun _ => ToolOutcome.ok "K" "C") "/c" {} ⟨[], []⟩).result =
        .ok (some r₁) ∧
      (getSelfSignedCert "darwin" (fun _ => ToolOutcome.ok "K" "C") "/c" {}
          (getSelfSignedCert "darwin" (fun _ => ToolOutcome.ok "K" "C") "/c" {} ⟨[], []⟩).fs).result =
        .ok (some r₂) ∧
      r₂.key = r₁.key ∧ r₂.cert = r₁.cert ∧
      ∀ a, Event.spawnEv a ∉
        (getSelfSignedCert "darwin" (fun _ => ToolOutcome.ok "K" "C") "/c" {}
          (getSelfSignedCert "darwin" (fun _ => ToolOutcome.ok "K" "C") "/c" {} ⟨[], []⟩).fs).events :=
  provisionIdempotent (fun _ => ToolOutcome.ok "K" "C") "/c" {} ⟨[], []⟩ "K" "C" rfl
    (fun _ => rfl)

/-- Claim C3: on an unsupported platform with a fresh output directory the
call returns null without error, and afterwards the directory exists and
holds only the `.gitignore` marker with contents `**` — no key, certificate
or readme. -/
theorem unsupportedPlatformLeavesMarkerOnly (platform : String)
    (tool : List String → ToolOutcome) (cwd : String)
    (options : GetSelfSignedCertOptions) (fs : FS)
    (hplat : platform ≠ "darwin")
    (hdir : fs.dirExists (resolvedOutDir cwd options) = false)
    (hfiles : ∀ e ∈ fs.files, underDir (resolvedOutDir cwd options) e.1 = false) :
    (getSelfSignedCert platform tool cwd options fs).result = .ok none ∧
    (getSelfSignedCert platform tool cwd options fs).fs.dirExists
      (resolvedOutDir cwd options) = true ∧
    (getSelfSignedCert platform tool cwd options fs).fs.readFile
      (resolveIn (resolvedOutDir cwd options) ".gitignore") = some "**" ∧
    (getSelfSignedCert platform tool cwd options fs).fs.readFile
      (resolveIn (resolvedOutDir cwd options) "selfsigned.key") = none ∧
    (getSelfSignedCert platform tool cwd options fs).fs.readFile
      (resolveIn (resolvedOutDir cwd options) "selfsigned.crt") = none ∧
    (getSelfSignedCert platform tool cwd options fs).fs.readFile
      (resolveIn (resolvedOutDir cwd options) "readme.md") = none ∧
    ∀ e ∈ (getSelfSignedCert platform tool cwd options fs).fs.files,
      underDir (resolvedOutDir cwd options) e.1 = true →
        e = (resolveIn (resolvedOutDir cwd options) ".gitignore", "**") := by
  rw [run_fresh_unsupported platform tool cwd options fs hplat hdir]
  refine ⟨rfl, ?_, FS.readFile_writeFile_self _ _ _, ?_, ?_, ?_, ?_⟩
  · simp [FS.writeFile, FS.ensureDir, FS.dirExists, List.contains_cons]
  · rw [FS.readFile_writeFile_ne _ _ _ _ (gi_ne_key _)]
    exact FS.readFile_none_of_underDir _ _ _ hfiles (underDir_resolveIn _ _)
  · rw [FS.readFile_writeFile_ne _ _ _ _ (gi_ne_crt _)]
    exact FS.readFile_none_of_underDir _ _ _ hfiles (underDir_resolveIn _ _)
  · rw [FS.readFile_writeFile_ne _ _ _ _ (gi_ne_rm _)]
    exact FS.readFile_none_of_underDir _ _ _ hfiles (underDir_resolveIn _ _)
  · intro e he hu
    rcases List.mem_cons.mp he with h1 | h2
    · exact h1
    · rw [hfiles e h2] at hu
      cases hu

theorem unsupportedPlatformLeavesMarkerOnlyWitness :
    (getSelfSignedCert "linux" (fun _ => ToolOutcome.fail 1) "/c" {} ⟨[], []⟩).result = .ok none ∧
    (getSelfSignedCert "linux" (fun _ => ToolOutcome.fail 1) "/c" {} ⟨[], []⟩).fs.dirExists
      (resolvedOutDir "/c" {}) = true ∧
    (getSelfSignedCert "linux" (fun _ => ToolOutcome.fail 1) "/c" {} ⟨[], []⟩).fs.readFile
      (resolveIn (resolvedOutDir "/c" {}) ".gitignore") = some "**" ∧
    (getSelfSignedCert "linux" (fun _ => ToolOutcome.fail 1) "/c" {} ⟨[], []⟩).fs.readFile
      (resolveIn (resolvedOutDir "/c" {}) "selfsigned.key") = none ∧
    (getSelfSignedCert "linux" (fun _ => ToolOutcome.fail 1) "/c" {} ⟨[], []⟩).fs.readFile
      (resolveIn (resolvedOutDir "/c" {}) "selfsigned.crt") = none ∧
    (getSelfSignedCert "linux" (fun _ => ToolOutcome.fail 1) "/c" {} ⟨[], []⟩).fs.readFile
      (resolveIn (resolvedOutDir "/c" {}) "readme.md") = none ∧
    ∀ e ∈ (getSelfSignedCert "linux" (fun _ => ToolOutcome.fail 1) "/c" {} ⟨[], []⟩).fs.files,
      underDir (resolvedOutDir "/c" {}) e.1 = true →
        e = (resolveIn (resolvedOutDir "/c" {}) ".gitignore", "**") :=
  unsupportedPlatformLeavesMarkerOnly "linux" (fun _ => ToolOutcome.fail 1) "/c" {} ⟨[], []⟩
    (by decide) rfl (fun e he => absurd he (List.not_mem_nil e))

/-- Claim C4: the subjectAltName list handed to the tool is exactly
DNS:localhost, IP:127.0.0.1, IP:0.0.0.0 followed by `extraAltNames` in
input order, comma-joined into the single argument after `-addext`. -/
theorem altNamesOrderedNoDedup (tool : List String → ToolOutcome) (cwd : String)
    (options : GetSelfSignedCertOptions) (fs : FS)
    (hdir : fs.dirExists (resolvedOutDir cwd options) = false) :
    ∃ pre post,
      spawnedArgs (getSelfSignedCert "darwin" tool cwd options fs).events =
        [pre ++ ["-addext", "subjectAltName = " ++ String.intercalate ","
          (["DNS:localhost", "IP:127.0.0.1", "IP:0.0.0.0"] ++
            resolvedExtraAltNames options)] ++ post] := by
  refine ⟨["req", "-newkey", "rsa:4096", "-x509", "-nodes", "-keyout",
    resolveIn (resolvedOutDir cwd options) "selfsigned.key", "-new", "-out",
    resolveIn (resolvedOutDir cwd options) "selfsigned.crt", "-subj",
    "/CN=" ++ resolvedName options],
    ["-sha256", "-days", toString (resolvedDays options)], ?_⟩
  cases htool : tool (opensslArgs (resolveIn (resolvedOutDir cwd options) "selfsigned.key")
      (resolveIn (resolvedOutDir cwd options) "selfsigned.crt") (resolvedName options)
      (["DNS:localhost", "IP:127.0.0.1", "IP:0.0.0.0"] ++ resolvedExtraAltNames options)
      (resolvedDays options)) with
  | ok k c =>
    rw [run_fresh_darwin_ok tool cwd options fs k c hdir htool]
    rfl
  | fail code =>
    rw [run_fresh_darwin_fail tool cwd options fs code hdir htool]
    rfl

theorem altNamesOrderedNoDedupWitness :
    ∃ pre post,
      spawnedArgs (getSelfSignedCert "darwin" (fun _ => ToolOutcome.fail 1) "/c"
        { extraAltNames := some ["DNS:foo.test", "IP:127.0.0.1"] } ⟨[], []⟩).events =
        [pre ++ ["-addext", "subjectAltName = " ++ String.intercalate ","
          (["DNS:localhost", "IP:127.0.0.1", "IP:0.0.0.0"] ++
            resolvedExtraAltNames { extraAltNames := some ["DNS:foo.test", "IP:127.0.0.1"] })]
          ++ post] :=
  altNamesOrderedNoDedup (fun _ => ToolOutcome.fail 1) "/c"
    { extraAltNames := some ["DNS:foo.test", "IP:127.0.0.1"] } ⟨[], []⟩ rfl

/-- Claim C5: with an empty options object the defaults resolve to
name "Self Signed Cert", days 365, outDir `<cwd>/selfSignedCerts` and
projectUrl "https://localhost:8080". -/
theorem emptyOptionsDefaults (cwd : String) :
    resolvedName {} = "Self Signed Cert" ∧
    resolvedDays {} = 365 ∧
    resolvedOutDir cwd {} = cwd ++ "/selfSignedCerts" ∧
    resolvedProjectUrl {} = "https://localhost:8080" := by
  refine ⟨rfl, rfl, ?_, rfl⟩
  have h : resolvedOutDir cwd {} = cwd ++ "/" ++ "selfSignedCerts" := rfl
  rw [h, String.append_assoc]
  rfl

/-- Claim C6: the tool is invoked exactly once, with the fixed openssl
argument template: new 4096-bit RSA key, x509, no passphrase, key and
certificate output paths, subject `/CN=<name>`, the subjectAltName
extension, SHA-256 digest and the validity in days. -/
theorem opensslArgumentTemplate (tool : List String → ToolOutcome) (cwd : String)
    (options : GetSelfSignedCertOptions) (fs : FS)
    (hdir : fs.dirExists (resolvedOutDir cwd options) = false) :
    spawnedArgs (getSelfSignedCert "darwin" tool cwd options fs).events =
      [["req", "-newkey", "rsa:4096", "-x509", "-nodes", "-keyout",
        resolveIn (resolvedOutDir cwd options) "selfsigned.key", "-new", "-out",
        resolveIn (resolvedOutDir cwd options) "selfsigned.crt", "-subj",
        "/CN=" ++ resolvedName options, "-addext",
        "subjectAltName = " ++ String.intercalate ","
          (["DNS:localhost", "IP:127.0.0.1", "IP:0.0.0.0"] ++
            resolvedExtraAltNames options),
        "-sha256", "-days", toString (resolvedDays options)]] := by
  cases htool : tool (opensslArgs (resolveIn (resolvedOutDir cwd options) "selfsigned.key")
      (resolveIn (resolvedOutDir cwd options) "selfsigned.crt") (resolvedName options)
      (["DNS:localhost", "IP:127.0.0.1", "IP:0.0.0.0"] ++ resolvedExtraAltNames options)
      (resolvedDays options)) with
  | ok k c =>
    rw [run_fresh_darwin_ok tool cwd options fs k c hdir htool]
    rfl
  | fail code =>
    rw [run_fresh_darwin_fail tool cwd options fs code hdir htool]
    rfl

theorem opensslArgumentTemplateWitness :
    spawnedArgs (getSelfSignedCert "darwin" (fun _ => ToolOutcome.fail 1) "/c"
      { days := some 30 } ⟨[], []⟩).events =
      [["req", "-newkey", "rsa:4096", "-x509", "-nodes", "-keyout",
        resolveIn (resolvedOutDir "/c" { days := some 30 }) "selfsigned.key", "-new", "-out",
        resolveIn (resolvedOutDir "/c" { days := some 30 }) "selfsigned.crt", "-subj",
        "/CN=" ++ resolvedName { days := some 30 }, "-addext",
        "subjectAltName = " ++ String.intercalate ","
          (["DNS:localhost", "IP:127.0.0.1", "IP:0.0.0.0"] ++
            resolvedExtraAltNames { days := some 30 }),
        "-sha256", "-days", toString (resolvedDays { days := some 30 })]] :=
  opensslArgumentTemplate (fun _ => ToolOutcome.fail 1) "/c" { days := some 30 } ⟨[], []⟩ rfl

/-- Claim C7 counterexample: with a cache hit (`/d` exists) whose key file
is unreadable, the trace also contains a recursive removal — a filesystem
effect beyond reading the key and certificate files — so a cache hit is not
always limited to the two reads. -/
theorem cacheHitNotAlwaysReadOnly :
    (getSelfSignedCert "darwin" (fun _ => ToolOutcome.fail 1) "/c"
      { outDir := some "/d" } ⟨["/d"], []⟩).events =
      [.readEv "/d/selfsigned.key", .removeEv "/d"] ∧
    FS.dirExists ⟨["/d"], []⟩ "/d" = true ∧
    (getSelfSignedCert "darwin" (fun _ => ToolOutcome.fail 1) "/c"
      { outDir := some "/d" } ⟨["/d"], []⟩).fs.dirExists "/d" = false :=
  ⟨rfl, rfl, rfl⟩

/-- Claim C7 (amended): on a cache hit the call never creates a directory,
writes a file or spawns the tool; and when the read-back succeeds, the
filesystem is untouched and the only events are the two reads.  (When a
read fails, the error path additionally removes the directory.) -/
theorem cacheHitSkipsGeneration (platform : String)
    (tool : List String → ToolOutcome) (cwd : String)
    (options : GetSelfSignedCertOptions) (fs : FS)
    (hdir : fs.dirExists (resolvedOutDir cwd options) = true) :
    (∀ a, Event.spawnEv a ∉ (getSelfSignedCert platform tool cwd options fs).events) ∧
    (∀ p c, Event.writeEv p c ∉ (getSelfSignedCert platform tool cwd options fs).events) ∧
    (∀ p, Event.mkdirEv p ∉ (getSelfSignedCert platform tool cwd options fs).events) ∧
    (∀ r : CertResult,
      (getSelfSignedCert platform tool cwd options fs).result = .ok (some r) →
      (getSelfSignedCert platform tool cwd options fs).fs = fs ∧
      (getSelfSignedCert platform tool cwd options fs).events =
        [.readEv (resolveIn (resolvedOutDir cwd options) "selfsigned.key"),
         .readEv (resolveIn (resolvedOutDir cwd options) "selfsigned.crt")]) := by
  cases hk : fs.readFile (resolveIn (resolvedOutDir cwd options) "selfsigned.key") with
  | none =>
    rw [run_cachehit_keyMissing platform tool cwd options fs hdir hk]
    refine ⟨fun a => by simp, fun p c => by simp, fun p => by simp, fun r h => ?_⟩
    simp at h
  | some k =>
    cases hc : fs.readFile (resolveIn (resolvedOutDir cwd options) "selfsigned.crt") with
    | none =>
      rw [run_cachehit_certMissing platform tool cwd options fs k hdir hk hc]
      refine ⟨fun a => by simp, fun p c => by simp, fun p => by simp, fun r h => ?_⟩
      simp at h
    | some c =>
      rw [run_cachehit_ok platform tool cwd options fs k c hdir hk hc]
      exact ⟨fun a => by simp, fun p c' => by simp, fun p => by simp,
        fun r h => ⟨rfl, rfl⟩⟩

theorem cacheHitSkipsGenerationWitness :
    (∀ a, Event.spawnEv a ∉ (getSelfSignedCert "darwin" (fun _ => ToolOutcome.fail 1) "/c"
      { outDir := some "/d" } ⟨["/d"], [("/d/selfsigned.key", "K"), ("/d/selfsigned.crt", "C")]⟩).events) ∧
    (∀ p c, Event.writeEv p c ∉ (getSelfSignedCert "darwin" (fun _ => ToolOutcome.fail 1) "/c"
      { outDir := some "/d" } ⟨["/d"], [("/d/selfsigned.key", "K"), ("/d/selfsigned.crt", "C")]⟩).events) ∧
    (∀ p, Event.mkdirEv p ∉ (getSelfSignedCert "darwin" (fun _ => ToolOutcome.fail 1) "/c"
      { outDir := some "/d" } ⟨["/d"], [("/d/selfsigned.key", "K"), ("/d/selfsigned.crt", "C")]⟩).events) ∧
    (∀ r : CertResult,
      (getSelfSignedCert "darwin" (fun _ => ToolOutcome.fail 1) "/c"
        { outDir := some "/d" } ⟨["/d"], [("/d/selfsigned.key", "K"), ("/d/selfsigned.crt", "C")]⟩).result = .ok (some r) →
      (getSelfSignedCert "darwin" (fun _ => ToolOutcome.fail 1) "/c"
        { outDir := some "/d" } ⟨["/d"], [("/d/selfsigned.key", "K"), ("/d/selfsigned.crt", "C")]⟩).fs =
        ⟨["/d"], [("/d/selfsigned.key", "K"), ("/d/selfsigned.crt", "C")]⟩ ∧
      (getSelfSignedCert "darwin" (fun _ => ToolOutcome.fail 1) "/c"
        { outDir := some "/d" } ⟨["/d"], [("/d/selfsigned.key", "K"), ("/d/selfsigned.crt", "C")]⟩).events =
        [.readEv (resolveIn (resolvedOutDir "/c" { outDir := some "/d" }) "selfsigned.key"),
         .readEv (resolveIn (resolvedOutDir "/c" { outDir := some "/d" }) "selfsigned.crt")]) :=
  cacheHitSkipsGeneration "darwin" (fun _ => ToolOutcome.fail 1) "/c" { outDir := some "/d" }
    ⟨["/d"], [("/d/selfsigned.key", "K"), ("/d/selfsigned.crt", "C")]⟩ rfl

/-- Claim C8: every non-null result bundles the resolved output directory,
the key path `<outDir>/selfsigned.key`, the certificate path
`<outDir>/selfsigned.crt`, and the contents of those two files. -/
theorem resultBundlesPathsAndContents (platform : String)
    (tool : List String → ToolOutcome) (cwd : String)
    (options : GetSelfSignedCertOptions) (fs : FS) (r : CertResult)
    (h : (getSelfSignedCert platform tool cwd options fs).result = .ok (some r)) :
    r.outDir = resolvedOutDir cwd options ∧
    r.keyFile = r.outDir ++ "/selfsigned.key" ∧
    r.certFile = r.outDir ++ "/selfsigned.crt" ∧
    (getSelfSignedCert platform tool cwd options fs).fs.readFile r.keyFile = some r.key ∧
    (getSelfSignedCert platform tool cwd options fs).fs.readFile r.certFile = some r.cert := by
  by_cases hd : fs.dirExists (resolvedOutDir cwd options) = true
  · cases hk : fs.readFile (resolveIn (resolvedOutDir cwd options) "selfsigned.key") with
    | none =>
      rw [run_cachehit_keyMissing platform tool cwd options fs hd hk] at h
      simp at h
    | some k =>
      cases hc : fs.readFile (resolveIn (resolvedOutDir cwd options) "selfsigned.crt") with
      | none =>
        rw [run_cachehit_certMissing platform tool cwd options fs k hd hk hc] at h
        simp at h
      | some c =>
        rw [run_cachehit_ok platform tool cwd options fs k c hd hk hc] at h ⊢
        have h2 := Option.some.inj (Except.ok.inj h)
        subst h2
        exact ⟨rfl, resolveIn_key _, resolveIn_crt _, hk, hc⟩
  · have hdir : fs.dirExists (resolvedOutDir cwd options) = false := by
      simpa using hd
    by_cases hp : platform = "darwin"
    · subst hp
      cases htool : tool (opensslArgs
          (resolveIn (resolvedOutDir cwd options) "selfsigned.key")
          (resolveIn (resolvedOutDir cwd options) "selfsigned.crt") (resolvedName options)
          (["DNS:localhost", "IP:127.0.0.1", "IP:0.0.0.0"] ++ resolvedExtraAltNames options)
          (resolvedDays options)) with
      | ok k c =>
        rw [run_fresh_darwin_ok tool cwd options fs k c hdir htool] at h ⊢
        have h2 := Option.some.inj (Except.ok.inj h)
        subst h2
        exact ⟨rfl, resolveIn_key _, resolveIn_crt _,
          genChain_readFile_key _ _ _ _ _ _, genChain_readFile_crt _ _ _ _ _ _⟩
      | fail code =>
        rw [run_fresh_darwin_fail tool cwd options fs code hdir htool] at h
        simp at h
    · rw [run_fresh_unsupported platform tool cwd options fs hp hdir] at h
      simp at h

theorem resultBundlesPathsAndContentsWitness :
    (⟨resolvedOutDir "/c" {}, "K", "C",
        resolveIn (resolvedOutDir "/c" {}) "selfsigned.key",
        resolveIn (resolvedOutDir "/c" {}) "selfsigned.crt"⟩ : CertResult).outDir =
      resolvedOutDir "/c" {} ∧
    (⟨resolvedOutDir "/c" {}, "K", "C",
        resolveIn (resolvedOutDir "/c" {}) "selfsigned.key",
        resolveIn (resolvedOutDir "/c" {}) "selfsigned.crt"⟩ : CertResult).keyFile =
      (⟨resolvedOutDir "/c" {}, "K", "C",
        resolveIn (resolvedOutDir "/c" {}) "selfsigned.key",
        resolveIn (resolvedOutDir "/c" {}) "selfsigned.crt"⟩ : CertResult).outDir ++
        "/selfsigned.key" ∧
    (⟨resolvedOutDir "/c" {}, "K", "C",
        resolveIn (resolvedOutDir "/c" {}) "selfsigned.key",
        resolveIn (resolvedOutDir "/c" {}) "selfsigned.crt"⟩ : CertResult).certFile =
      (⟨resolvedOutDir "/c" {}, "K", "C",
        resolveIn (resolvedOutDir "/c" {}) "selfsigned.key",
        resolveIn (resolvedOutDir "/c" {}) "selfsigned.crt"⟩ : CertResult).outDir ++
        "/selfsigned.crt" ∧
    (getSelfSignedCert "darwin" (fun _ => ToolOutcome.ok "K" "C") "/c" {} ⟨[], []⟩).fs.readFile
      (⟨resolvedOutDir "/c" {}, "K", "C",
        resolveIn (resolvedOutDir "/c" {}) "selfsigned.key",
        resolveIn (resolvedOutDir "/c" {}) "selfsigned.crt"⟩ : CertResult).keyFile =
      some (⟨resolvedOutDir "/c" {}, "K", "C",
        resolveIn (resolvedOutDir "/c" {}) "selfsigned.key",
        resolveIn (resolvedOutDir "/c" {}) "selfsigned.crt"⟩ : CertResult).key ∧
    (getSelfSignedCert "darwin" (fun _ => ToolOutcome.ok "K" "C") "/c" {} ⟨[], []⟩).fs.readFile
      (⟨resolvedOutDir "/c" {}, "K", "C",
        resolveIn (resolvedOutDir "/c" {}) "selfsigned.key",
        resolveIn (resolvedOutDir "/c" {}) "selfsigned.crt"⟩ : CertResult).certFile =
      some (⟨resolvedOutDir "/c" {}, "K", "C",
        resolveIn (resolvedOutDir "/c" {}) "selfsigned.key",
        resolveIn (resolvedOutDir "/c" {}) "selfsigned.crt"⟩ : CertResult).cert :=
  resultBundlesPathsAndContents "darwin" (fun _ => ToolOutcome.ok "K" "C") "/c" {} ⟨[], []⟩
    ⟨resolvedOutDir "/c" {}, "K", "C",
      resolveIn (resolvedOutDir "/c" {}) "selfsigned.key",
      resolveIn (resolvedOutDir "/c" {}) "selfsigned.crt"⟩ rfl

/-- Claim C9: on a cache hit whose read-back fails, the pre-existing output
directory is removed recursively — even though this call did not create
it — and the read error is re-raised. -/
theorem cacheHitReadFailureRemovesDir (platform : String)
    (tool : List String → ToolOutcome) (cwd : String)
    (options : GetSelfSignedCertOptions) (fs : FS)
    (hdir : fs.dirExists (resolvedOutDir cwd options) = true)
    (hfail : fs.readFile (resolveIn (resolvedOutDir cwd options) "selfsigned.key") = none ∨
      fs.readFile (resolveIn (resolvedOutDir cwd options) "selfsigned.crt") = none) :
    (∃ p, (getSelfSignedCert platform tool cwd options fs).result =
      .error (.readFailed p)) ∧
    (getSelfSignedCert platform tool cwd options fs).fs.dirExists
      (resolvedOutDir cwd options) = false ∧
    Event.removeEv (resolvedOutDir cwd options) ∈
      (getSelfSignedCert platform tool cwd options fs).events ∧
    ∀ e ∈ (getSelfSignedCert platform tool cwd options fs).fs.files,
      underDir (resolvedOutDir cwd options) e.1 = false := by
  cases hk : fs.readFile (resolveIn (resolvedOutDir cwd options) "selfsigned.key") with
  | none =>
    rw [run_cachehit_keyMissing platform tool cwd options fs hdir hk]
    exact ⟨⟨_, rfl⟩, FS.dirExists_removeRecursive_self _ _, by simp,
      FS.files_removeRecursive _ _⟩
  | some k =>
    cases hfail with
    | inl h =>
      rw [hk] at h
      simp at h
    | inr hc =>
      rw [run_cachehit_certMissing platform tool cwd options fs k hdir hk hc]
      exact ⟨⟨_, rfl⟩, FS.dirExists_removeRecursive_self _ _, by simp,
        FS.files_removeRecursive _ _⟩

theorem cacheHitReadFailureRemovesDirWitness :
    (∃ p, (getSelfSignedCert "darwin" (fun _ => ToolOutcome.fail 1) "/c"
      { outDir := some "/d" } ⟨["/d"], []⟩).result = .error (.readFailed p)) ∧
    (getSelfSignedCert "darwin" (fun _ => ToolOutcome.fail 1) "/c"
      { outDir := some "/d" } ⟨["/d"], []⟩).fs.dirExists
      (resolvedOutDir "/c" { outDir := some "/d" }) = false ∧
    Event.removeEv (resolvedOutDir "/c" { outDir := some "/d" }) ∈
      (getSelfSignedCert "darwin" (fun _ => ToolOutcome.fail 1) "/c"
        { outDir := some "/d" } ⟨["/d"], []⟩).events ∧
    ∀ e ∈ (getSelfSignedCert "darwin" (fun _ => ToolOutcome.fail 1) "/c"
      { outDir := some "/d" } ⟨["/d"], []⟩).fs.files,
      underDir (resolvedOutDir "/c" { outDir := some "/d" }) e.1 = false :=
  cacheHitReadFailureRemovesDir "darwin" (fun _ => ToolOutcome.fail 1) "/c"
    { outDir := some "/d" } ⟨["/d"], []⟩ rfl (Or.inl rfl)

/-- Claim C10: an empty-string `outDir` falls back to the default
`<cwd>/selfSignedCerts` (JS `||` treats `""` as absent), while an
empty-string `name` is used verbatim, so the tool receives the subject
argument `/CN=` with no common name. -/
theorem emptyStringOptionHandling (tool : List String → ToolOutcome)
    (cwd : String) (fs : FS)
    (hdir : fs.dirExists
      (resolvedOutDir cwd { name := some "", outDir := some "" }) = false) :
    resolvedOutDir cwd { name := some "", outDir := some "" } =
      cwd ++ "/selfSignedCerts" ∧
    resolvedName { name := some "", outDir := some "" } = "" ∧
    ∃ pre post,
      spawnedArgs (getSelfSignedCert "darwin" tool cwd
        { name := some "", outDir := some "" } fs).events =
        [pre ++ ["-subj", "/CN="] ++ post] := by
  refine ⟨?_, rfl, ?_⟩
  · have h : resolvedOutDir cwd { name := some "", outDir := some "" } =
        cwd ++ "/" ++ "selfSignedCerts" := rfl
    rw [h, String.append_assoc]
    rfl
  · refine ⟨["req", "-newkey", "rsa:4096", "-x509", "-nodes", "-keyout",
      resolveIn (resolvedOutDir cwd { name := some "", outDir := some "" }) "selfsigned.key",
      "-new", "-out",
      resolveIn (resolvedOutDir cwd { name := some "", outDir := some "" }) "selfsigned.crt"],
      ["-addext", "subjectAltName = DNS:localhost,IP:127.0.0.1,IP:0.0.0.0", "-sha256",
       "-days", "365"], ?_⟩
    cases htool : tool (opensslArgs
        (resolveIn (resolvedOutDir cwd { name := some "", outDir := some "" }) "selfsigned.key")
        (resolveIn (resolvedOutDir cwd { name := some "", outDir := some "" }) "selfsigned.crt")
        (resolvedName { name := some "", outDir := some "" })
        (["DNS:localhost", "IP:127.0.0.1", "IP:0.0.0.0"] ++
          resolvedExtraAltNames { name := some "", outDir := some "" })
        (resolvedDays { name := some "", outDir := some "" })) with
    | ok k c =>
      rw [run_fresh_darwin_ok tool cwd _ fs k c hdir htool]
      rfl
    | fail code =>
      rw [run_fresh_darwin_fail tool cwd _ fs code hdir htool]
      rfl

theorem emptyStringOptionHandlingWitness :
    resolvedOutDir "/c" { name := some "", outDir := some "" } =
      "/c" ++ "/selfSignedCerts" ∧
    resolvedName { name := some "", outDir := some "" } = "" ∧
    ∃ pre post,
      spawnedArgs (getSelfSignedCert "darwin" (fun _ => ToolOutcome.fail 1) "/c"
        { name := some "", outDir := some "" } ⟨[], []⟩).events =
        [pre ++ ["-subj", "/CN="] ++ post] :=
  emptyStringOptionHandling (fun _ => ToolOutcome.fail 1) "/c" ⟨[], []⟩ rfl

end Selfsigned
